import Mathlib

/-!
Verification development for the Glitter OpenGL-as-compute repository
(`src/Glitter/Sources/main.cpp`).

The repository drives a rasterization pipeline as a numeric compute
substrate: host float arrays are uploaded as 1-channel 2D textures,
a fragment shader is the compute kernel, and `Workspace::Render`
attaches an output texture to a transient framebuffer, binds the
inputs to texture units, and draws a full-screen quad so that one
fragment is produced per output cell.

Shallow embedding conventions:
* `GLfloat` scalars are modelled as `Rat` (exact arithmetic).  Both the
  shader-side and the CPU-side reference computation are evaluated in
  the same exact arithmetic, faithfully mirroring the order of
  operations of the source.
* The ambient OpenGL state (active texture unit, per-unit bound
  texture, texture image store, framebuffer table, bound framebuffer,
  current program) is an explicit `GLState` record threaded through
  every operation.
* `assert(false)` aborts (the source is compiled with asserts on); an
  aborting path is modelled as `Except.error (message, state-at-abort)`
  so that the device state at the moment of the abort is observable.
* Texture ids, framebuffer ids, program ids and texture units are
  `Nat`.  `GLsizei` dimensions are `Nat` (every dimension the program
  ever passes is nonnegative).
-/

namespace Glitter

/-- One allocated texture image on the device: dimensions and the
row-major scalar contents (`glTexImage2D` defines it, `glGetTexImage`
reads it back). -/
structure TexImage where
  width : Nat
  height : Nat
  data : List Rat
deriving Repr, DecidableEq

/-- The host-side `Texture` object of `main.cpp`: the GL texture name
`texture_` plus the cached `width_`/`height_` fields. -/
structure Tex where
  texture_ : Nat
  width_ : Nat
  height_ : Nat
deriving Repr, DecidableEq

/-- `static_cast<GLuint>(-1)`, the sentinel handle `kInvalidTexture` /
`kInvalidProgram`. -/
def kInvalidHandle : Nat := 2 ^ 32 - 1

/-- The ambient OpenGL state of the process: the hidden global state
that `main.cpp` manipulates through `glActiveTexture`,
`glBindTexture`, `glTexImage2D`, `glGenFramebuffers`, … .
`bound` is an association list from texture unit to the texture name
bound at that unit's `GL_TEXTURE_2D` target; newer bindings are consed
to the front, so `List.lookup` returns the current binding. -/
structure GLState where
  numUnits : Nat
  activeUnit : Nat
  bound : List (Nat × Nat)
  images : List (Nat × TexImage)
  nextTex : Nat
  framebuffers : List Nat
  nextFB : Nat
  boundFB : Nat
  currentProgram : Nat
deriving Repr, DecidableEq

/-- A freshly initialized context (`Workspace::Workspace()`):
`numUnits` hardware texture units, no textures or framebuffers yet. -/
def initState (numUnits : Nat) : GLState :=
  { numUnits := numUnits, activeUnit := 0, bound := [], images := [],
    nextTex := 1, framebuffers := [], nextFB := 1, boundFB := 0,
    currentProgram := 0 }

/-- Insert-or-replace in the image store, preserving the position of an
existing key (redefining a texture image replaces it in place). -/
def insertImage (t : Nat) (img : TexImage) :
    List (Nat × TexImage) → List (Nat × TexImage)
  | [] => [(t, img)]
  | p :: ps => if p.1 = t then (t, img) :: ps else p :: insertImage t img ps

/-- `glActiveTexture(GL_TEXTURE0 + u)`. -/
def glActiveTexture (u : Nat) (s : GLState) : GLState :=
  { s with activeUnit := u }

/-- `glBindTexture(GL_TEXTURE_2D, t)`: binds `t` at the active unit. -/
def glBindTexture (t : Nat) (s : GLState) : GLState :=
  { s with bound := (s.activeUnit, t) :: s.bound }

/-- `Workspace::BindTextureUnit(unit, texture)` — lines 425–428. -/
def bindTextureUnit (u t : Nat) (s : GLState) : GLState :=
  glBindTexture t (glActiveTexture u s)

/-- `Workspace::NumTextureUnits()` — queries
`GL_MAX_COMBINED_TEXTURE_IMAGE_UNITS` (lines 399–403). -/
def numTextureUnits (s : GLState) : Nat := s.numUnits

/-- The texture bound at the active unit's `GL_TEXTURE_2D` target
(texture 0, the default texture, when nothing was ever bound). -/
def boundTex (s : GLState) : Nat :=
  (s.bound.lookup s.activeUnit).getD 0

/-- `glGenTextures(1, &texture_)`: returns a fresh texture name. -/
def glGenTexture (s : GLState) : Nat × GLState :=
  (s.nextTex, { s with nextTex := s.nextTex + 1 })

/-- Look up a texture's image in the device store. -/
def lookupImage (t : Nat) (s : GLState) : Option TexImage :=
  s.images.lookup t

/-- (Re)define the image of texture `t`. -/
def setImage (t : Nat) (img : TexImage) (s : GLState) : GLState :=
  { s with images := insertImage t img s.images }

/-- `glTexImage2D(GL_TEXTURE_2D, 0, GL_RGBA32F, w, h, 0, GL_RED,
GL_FLOAT, data)`: defines the image of the texture bound at the active
unit, uploading `w*h` host scalars when `data` is non-null and leaving
the contents unspecified (modelled as zeros) when `data` is null. -/
def glTexImage2D (w h : Nat) (data : Option (List Rat)) (s : GLState) :
    GLState :=
  let contents := match data with
    | some d => d.take (w * h)
    | none => List.replicate (w * h) 0
  setImage (boundTex s) { width := w, height := h, data := contents } s

/-- `Texture::Texture(data, width, height)` — lines 351–377: generate a
texture name, bind it through the temporary (scratch) unit
`NumTextureUnits() - 1`, and upload the data.  (The four
`glTexParameteri` calls fix nearest-neighbour/clamp-to-edge sampling;
no operation modelled here samples, so they carry no state.) -/
def createTexture (data : Option (List Rat)) (width height : Nat)
    (s : GLState) : Tex × GLState :=
  let g := glGenTexture s
  let s1 := bindTextureUnit (numTextureUnits g.2 - 1) g.1 g.2
  let s2 := glTexImage2D width height data s1
  ({ texture_ := g.1, width_ := width, height_ := height }, s2)

/-- `Texture::GetData(data)` — lines 392–397: bind the texture through
the scratch unit `NumTextureUnits() - 1` and `glGetTexImage` the full
image back to the host. -/
def getData (tex : Tex) (s : GLState) : List Rat × GLState :=
  let s1 := bindTextureUnit (numTextureUnits s - 1) tex.texture_ s
  (((lookupImage (boundTex s1) s1).getD ⟨0, 0, []⟩).data, s1)

/-! ### Move-only resource wrappers (`Program`, `Texture`) -/

/-- The host-side `Program` object: a wrapper over the GL program id
`program_`. -/
structure ProgramObj where
  program_ : Nat
deriving Repr, DecidableEq

/-- `Program::Program(Program&&)` — lines 338–340: the new object takes
`other.program_`, the source is left holding `kInvalidProgram`.
Returns (new object, moved-from object). -/
def progMove (other : ProgramObj) : ProgramObj × ProgramObj :=
  ({ program_ := other.program_ }, { program_ := kInvalidHandle })

/-- `Program::~Program()` — lines 344–349: `glDeleteProgram` only when
the handle is not the sentinel.  Returns the list of device programs
deleted by this destructor run, and the object afterwards. -/
def progDestroy (p : ProgramObj) : List Nat × ProgramObj :=
  if p.program_ ≠ kInvalidHandle then
    ([p.program_], { program_ := kInvalidHandle })
  else
    ([], p)

/-- `Texture::Texture(Texture&&)` — lines 379–382. -/
def texMove (other : Tex) : Tex × Tex :=
  ({ texture_ := other.texture_, width_ := other.width_,
     height_ := other.height_ },
   { other with texture_ := kInvalidHandle })

/-- `Texture::~Texture()` — lines 384–390: `glDeleteTextures` only when
the handle is not the sentinel. -/
def texDestroy (t : Tex) : List Nat × Tex :=
  if t.texture_ ≠ kInvalidHandle then
    ([t.texture_], { t with texture_ := kInvalidHandle })
  else
    ([], t)

/-! ### Shader compilation / program linking error checks -/

/-- `Workspace::CreateShader` error handling — lines 635–658.  The
source queries `GL_COMPILE_STATUS` into `err` but never examines it;
the only guard is `if (info_log_len > 0)`, which prints the log and
`assert(false)`s.  (`GL_INFO_LOG_LENGTH` is positive exactly when the
driver produced a non-empty info log.) -/
def createShaderCheck (compileStatus : Int) (infoLogLen : Int)
    (infoLog : String) (shader : Nat) : Except String Nat :=
  if infoLogLen > 0 then Except.error infoLog else Except.ok shader

/-- `Workspace::CreateProgram(GLuint)` error handling — lines 665–686:
same shape as `createShaderCheck`, with `GL_LINK_STATUS` queried into
`err` but never examined. -/
def createProgramCheck (linkStatus : Int) (infoLogLen : Int)
    (infoLog : String) (program : Nat) : Except String Nat :=
  if infoLogLen > 0 then Except.error infoLog else Except.ok program

/-! ### The dispatcher (`Workspace::Render`) -/

/-- A fragment kernel: given a fetch function (sampler name ↦ the
addressed texture's scalar contents), the integer uniforms by name, and
the fragment's pixel coordinates, produce the output scalar.  This is
the interface the fragment shader source sees after the dispatcher has
bound samplers and uniforms. -/
def Kernel : Type :=
  (String → List Rat) → (String → Int) → Nat → Nat → Rat

/-- The sampler-uniform writes of the binding loop (lines 557–566): for
`unit = 0 .. inputs.size()-1` it executes
`glUniform1i(loc(name_unit), unit)`, so a name that occurs several
times ends up assigned to the **last** unit carrying it.
`lastAssignment name unit l` is the unit the loop leaves assigned to
`name`, with `l` the remaining inputs starting at loop counter
`unit`. -/
def lastAssignment (name : String) (unit : Nat) :
    List (String × Tex) → Option Nat
  | [] => none
  | p :: ps =>
    match lastAssignment name (unit + 1) ps with
    | some u => some u
    | none => if p.1 = name then some unit else none

/-- The unit the dispatcher's sampler uniform `name` points at after
the binding loop. -/
def samplerUnit (inputs : List (String × Tex)) (name : String) :
    Option Nat :=
  lastAssignment name 0 inputs

/-- The scalar-uniform values set by the uniform loop (lines 569–574):
last write wins; a name never set keeps the GL default value 0. -/
def uniformVal (uniforms : List (String × Int)) (name : String) : Int :=
  ((uniforms.reverse).lookup name).getD 0

/-- The texture-unit binding loop (lines 557–566) with its loop
counter: bind the next input's texture at unit `unit` and continue. -/
def bindInputsAux (unit : Nat) : List (String × Tex) → GLState → GLState
  | [], s => s
  | p :: ps, s =>
    bindInputsAux (unit + 1) ps (bindTextureUnit unit p.2.texture_ s)

/-- The full binding loop: units `0 .. inputs.size()-1`. -/
def bindInputs (inputs : List (String × Tex)) (s : GLState) : GLState :=
  bindInputsAux 0 inputs s

/-- Resolve a sampler name to the texture id it samples, through the
state after the binding loop: name ↦ assigned unit ↦ texture bound at
that unit. -/
def texOf (inputs : List (String × Tex)) (s : GLState) (name : String) :
    Option Nat :=
  (samplerUnit inputs name).bind (fun u => s.bound.lookup u)

/-- The data the shader can `texelFetch` from sampler `name` in state
`s`: the image contents of the resolved texture ([] when the sampler
resolves to nothing or the texture has no image). -/
def fetchIn (tof : String → Option Nat) (s : GLState) (name : String) :
    List Rat :=
  match tof name with
  | some t => ((lookupImage t s).getD ⟨0, 0, []⟩).data
  | none => []

/-- One iteration of the timing loop (lines 580–584): `glClear` zeroes
the color attachment (the output image; the clear color is the default
(0,0,0,0)), then `glDrawArrays` draws the two full-screen triangles,
producing one fragment per viewport pixel — the viewport equals the
output's (width, height), and the kernel reads the texture store as it
stands after the clear.  `glFinish` only blocks and has no state
effect. -/
def dispatchIter (κ : Kernel) (tof : String → Option Nat)
    (uni : String → Int) (outId vw vh : Nat) (s : GLState) : GLState :=
  match lookupImage outId s with
  | some img =>
    let s1 := setImage outId
      { width := img.width, height := img.height,
        data := List.replicate (img.width * img.height) 0 } s
    let data := (List.range (vw * vh)).map
      (fun i => κ (fetchIn tof s1) uni (i % vw) (i / vw))
    match lookupImage outId s1 with
    | some img1 =>
      setImage outId
        { width := img1.width, height := img1.height, data := data } s1
    | none => s1
  | none => s

/-- `glUseProgram(program.program_)`. -/
def glUseProgram (p : Nat) (s : GLState) : GLState :=
  { s with currentProgram := p }

/-- `glGenFramebuffers(1, &frame_buffer)`. -/
def glGenFramebuffer (s : GLState) : Nat × GLState :=
  (s.nextFB,
   { s with nextFB := s.nextFB + 1,
            framebuffers := s.nextFB :: s.framebuffers })

/-- `glBindFramebuffer(GL_FRAMEBUFFER, fb)`. -/
def glBindFramebuffer (fb : Nat) (s : GLState) : GLState :=
  { s with boundFB := fb }

/-- `glDeleteFramebuffers(1, &frame_buffer)`: the name is removed from
the live set (and, per GL, unbound if currently bound). -/
def glDeleteFramebuffer (fb : Nat) (s : GLState) : GLState :=
  { s with framebuffers := s.framebuffers.erase fb,
           boundFB := if s.boundFB = fb then 0 else s.boundFB }

/-- `glCheckFramebufferStatus` after attaching `output->texture()` as
the sole color attachment: complete exactly when the attachment is a
defined image with nonzero dimensions
(`GL_FRAMEBUFFER_INCOMPLETE_ATTACHMENT` otherwise). -/
def fbComplete (output : Tex) (s : GLState) : Bool :=
  match lookupImage output.texture_ s with
  | some img => decide (0 < img.width) && decide (0 < img.height)
  | none => false

/-- `Workspace::Render(program, inputs, uniforms, output, niters)` —
lines 523–592, the compute dispatch.  Mirrors the source order:
precondition check, `glUseProgram`, framebuffer creation + binding +
attachment, completeness check, input-binding loop, uniform loop,
re-bind framebuffer, viewport = output size, then `niters` clear/draw
iterations and `glDeleteFramebuffers`.  An `assert(false)` path is an
`Except.error` carrying the message printed and the device state at the
abort. -/
def renderCompute (κ : Kernel) (program : Nat)
    (inputs : List (String × Tex)) (uniforms : List (String × Int))
    (output : Tex) (niters : Nat) (s : GLState) :
    Except (String × GLState) GLState :=
  if inputs.length + 2 > numTextureUnits s then
    Except.error ("Too many inputs!", s)
  else
    let s0 := glUseProgram program s
    let g := glGenFramebuffer s0
    let s1 := glBindFramebuffer g.1 g.2
    if fbComplete output s1 then
      let s2 := bindInputs inputs s1
      let tof := texOf inputs s2
      let uni := uniformVal uniforms
      let s3 := glBindFramebuffer g.1 s2
      let s4 :=
        (dispatchIter κ tof uni output.texture_ output.width_
          output.height_)^[niters] s3
      Except.ok (glDeleteFramebuffer g.1 s4)
    else
      Except.error ("Framebuffer not complete.", s1)

/-- `Workspace::Render(program, inputs)` — lines 594–626, the display
dispatch: weaker precondition `inputs.size() + 1 > NumTextureUnits()`,
same binding loop, then renders to framebuffer 0 (the window, whose
pixels are outside the modelled texture store). -/
def renderDisplay (program : Nat) (inputs : List (String × Tex))
    (s : GLState) : Except (String × GLState) GLState :=
  if inputs.length + 1 > numTextureUnits s then
    Except.error ("Too many inputs!", s)
  else
    let s0 := glUseProgram program s
    let s1 := bindInputs inputs s0
    Except.ok (glBindFramebuffer 0 s1)

/-! ### The matmul kernel and the CPU reference -/

/-- `texelFetch(S, ivec2(x, 0), 0).r` on a 1-row single-channel
texture: the scalar at column `x` (0 outside the image, a case the
verified dispatches never reach). -/
def texelFetchR (img : List Rat) (x : Int) : Rat :=
  if 0 ≤ x ∧ x < (img.length : Int) then img.getD x.toNat 0 else 0

/-- The `fragment_shader_text` matmul kernel — lines 68–84:
`idx = pixel.x; row = idx / N; col = idx % N;
color = Σ_i A[row*N+i] * B[i*N+col]`, accumulated in source order
(`color += a * b` for `i = 0 .. N-1`).  GLSL integer division agrees
with Lean's on the nonnegative operands that occur here. -/
def matmulKernel : Kernel := fun fetch uni x _y =>
  let N : Int := uni "N"
  let idx : Int := x
  let row : Int := idx / N
  let col : Int := idx % N
  (List.range N.toNat).foldl
    (fun (color : Rat) (i : Nat) =>
      color + texelFetchR (fetch "A") (row * N + (i : Int)) *
        texelFetchR (fetch "B") ((i : Int) * N + col)) 0

/-- One cell of the CPU reference (`TestRenderToTexture`, lines
299–310): `cpu_result[row*N+col] = Σ_i texture0[row*N+i] *
texture1[i*N+col]`, accumulated in source order. -/
def cpuCell (t0 t1 : List Rat) (N row col : Nat) : Rat :=
  (List.range N).foldl
    (fun c i => c + t0.getD (row * N + i) 0 * t1.getD (i * N + col) 0) 0

/-- The CPU reference array: the row/col double loop writes cell
(row, col) at index `row*N+col`, i.e. row-major order.  (The outer
`niters` timing loop recomputes identical values and is dropped.) -/
def cpuMatmul (t0 t1 : List Rat) (N : Nat) : List Rat :=
  (List.range N).flatMap
    (fun row => (List.range N).map (fun col => cpuCell t0 t1 N row col))

/-- The end-to-end matmul scenario of `TestRenderToTexture` (lines
256–315): create `A` and `B` as `(N*N)`-wide 1-row textures, create an
uninitialized target of the same shape, run the compute dispatch of the
matmul kernel with uniform `N`, then read the target back. -/
def matmulPipeline (numUnits N niters : Nat) (A B : List Rat) :
    Except (String × GLState) (List Rat) :=
  let p1 := createTexture (some A) (N * N) 1 (initState numUnits)
  let p2 := createTexture (some B) (N * N) 1 p1.2
  let p3 := createTexture none (N * N) 1 p2.2
  (renderCompute matmulKernel 1 [("A", p1.1), ("B", p2.1)]
      [("N", (N : Int))] p3.1 niters p3.2).map
    (fun s => (getData p3.1 s).1)

/-- The state a `Workspace::Render` run leaves the device in: the
result state on the normal path, the state at the `assert(false)` on an
abort path. -/
def finalState : Except (String × GLState) GLState → GLState
  | Except.ok s => s
  | Except.error e => e.2

/-- What the kernel can fetch from sampler `name` during a dispatch
whose input list is `inputs`, expressed against the pre-dispatch state
`s`: the image contents of the texture of the input the sampler was
left assigned to.  (Valid description of the draw whenever no input
aliases the output, since then the clear does not disturb any fetched
image.) -/
def specFetch (inputs : List (String × Tex)) (s : GLState)
    (name : String) : List Rat :=
  match samplerUnit inputs name with
  | some u =>
    ((lookupImage (inputs.getD u ("", ⟨0, 0, 0⟩)).2.texture_ s).getD
      ⟨0, 0, []⟩).data
  | none => []

/-- The output contents one dispatch draw produces, against the
pre-dispatch state `s`: one kernel evaluation per viewport pixel, the
viewport being `output`'s (width, height). -/
def drawData (κ : Kernel) (inputs : List (String × Tex))
    (uniforms : List (String × Int)) (output : Tex) (s : GLState) :
    List Rat :=
  (List.range (output.width_ * output.height_)).map
    (fun i => κ (specFetch inputs s) (uniformVal uniforms)
      (i % output.width_) (i / output.width_))

/-- A small concrete scenario used to exercise the dispatcher: texture
1 holds the single scalar 2, texture 2 is an uninitialized 1×1 render
target. -/
def demoState : GLState :=
  (createTexture none 1 1 (createTexture (some [2]) 1 1 (initState 8)).2).2

/-- The output object of the demo scenario. -/
def demoOut : Tex := ⟨2, 1, 1⟩

/-- The input binding list of the demo scenario. -/
def demoInputs : List (String × Tex) := [("A", ⟨1, 1, 1⟩)]

/-- A two-iteration compute dispatch over the demo scenario. -/
def demoRun : Except (String × GLState) GLState :=
  renderCompute matmulKernel 1 demoInputs [] demoOut 2 demoState

/-- The state the demo dispatch ends in. -/
def demoFinal : GLState := finalState demoRun

/-! ### Association-list and binding-loop lemmas -/

theorem lookup_insertImage_self (t : Nat) (img : TexImage)
    (l : List (Nat × TexImage)) :
    (insertImage t img l).lookup t = some img := by
  induction l with
  | nil => simp [insertImage]
  | cons p ps ih =>
    by_cases h : p.1 = t
    · simp [insertImage, h]
    · simp only [insertImage, if_neg h, List.lookup]
      have : (t == p.1) = false := by
        simp [beq_iff_eq]; exact fun hh => h hh.symm
      simp [this, ih]

theorem lookup_insertImage_other (t u : Nat) (img : TexImage)
    (l : List (Nat × TexImage)) (h : u ≠ t) :
    (insertImage t img l).lookup u = l.lookup u := by
  have hb : (u == t) = false := by simp [h]
  induction l with
  | nil => simp [insertImage, List.lookup, hb]
  | cons p ps ih =>
    by_cases hp : p.1 = t
    · subst hp
      simp [insertImage, List.lookup, hb]
    · simp only [insertImage, if_neg hp, List.lookup]
      cases hu : (u == p.1) <;> simp [ih]

theorem insertImage_absorb (t : Nat) (a b : TexImage)
    (l : List (Nat × TexImage)) :
    insertImage t a (insertImage t b l) = insertImage t a l := by
  induction l with
  | nil => simp [insertImage]
  | cons p ps ih =>
    by_cases h : p.1 = t
    · simp [insertImage, h]
    · simp [insertImage, if_neg h, ih]

/-! ### Claim theorems: C2, C7, C9 -/

/-- C2: for every valid (width, height) and host array `X` of
`width*height` elements, `GetData` after `Texture::Texture(X, w, h)`
returns `X` element-for-element, from any ambient GL state. -/
theorem create_getData_roundtrip (w h : Nat) (X : List Rat) (s : GLState)
    (hlen : X.length = w * h) :
    (getData (createTexture (some X) w h s).1
        (createTexture (some X) w h s).2).1 = X := by
  simp only [createTexture, getData, glGenTexture, bindTextureUnit,
    glActiveTexture, glBindTexture, glTexImage2D, numTextureUnits,
    boundTex, lookupImage, setImage, List.lookup, beq_self_eq_true,
    Option.getD_some]
  rw [lookup_insertImage_self]
  simpa using List.take_of_length_le (le_of_eq hlen)

/-- Witness for C2 at `w = 2`, `h = 1`, `X = [1, 2]`. -/
theorem create_getData_roundtrip_witness :
    ([1, (2 : Rat)].length = 2 * 1) ∧
    (getData (createTexture (some [1, 2]) 2 1 (initState 8)).1
        (createTexture (some [1, 2]) 2 1 (initState 8)).2).1 = [1, 2] :=
  ⟨by decide, create_getData_roundtrip 2 1 [1, 2] (initState 8) (by decide)⟩

/-- C7: destruction releases the device resource exactly once.  After a
move, the moved-from object holds the sentinel, its destructor deletes
nothing, and the destructors of the new and the moved-from object
together delete the original handle exactly once — for both `Program`
and `Texture`. -/
theorem destroy_releases_once (p : ProgramObj) (t : Tex)
    (hp : p.program_ ≠ kInvalidHandle) (ht : t.texture_ ≠ kInvalidHandle) :
    ((progMove p).2.program_ = kInvalidHandle ∧
     (progDestroy (progMove p).2).1 = [] ∧
     (progDestroy (progMove p).1).1 ++ (progDestroy (progMove p).2).1
       = [p.program_]) ∧
    ((texMove t).2.texture_ = kInvalidHandle ∧
     (texDestroy (texMove t).2).1 = [] ∧
     (texDestroy (texMove t).1).1 ++ (texDestroy (texMove t).2).1
       = [t.texture_]) := by
  constructor
  · refine ⟨rfl, ?_, ?_⟩ <;> simp [progMove, progDestroy, hp]
  · refine ⟨rfl, ?_, ?_⟩ <;> simp [texMove, texDestroy, ht]

/-- Witness for C7 at `p.program_ = 3`, `t.texture_ = 4`. -/
theorem destroy_releases_once_witness :
    ((3 : Nat) ≠ kInvalidHandle ∧ (4 : Nat) ≠ kInvalidHandle) ∧
    (((progMove ⟨3⟩).2.program_ = kInvalidHandle ∧
      (progDestroy (progMove ⟨3⟩).2).1 = [] ∧
      (progDestroy (progMove ⟨3⟩).1).1 ++ (progDestroy (progMove ⟨3⟩).2).1
        = [3]) ∧
     ((texMove ⟨4, 1, 1⟩).2.texture_ = kInvalidHandle ∧
      (texDestroy (texMove ⟨4, 1, 1⟩).2).1 = [] ∧
      (texDestroy (texMove ⟨4, 1, 1⟩).1).1 ++
        (texDestroy (texMove ⟨4, 1, 1⟩).2).1 = [4])) :=
  ⟨⟨by decide, by decide⟩,
   destroy_releases_once ⟨3⟩ ⟨4, 1, 1⟩ (by decide) (by decide)⟩

/-! ### Binding-loop lemmas -/

theorem setImage_absorb (t : Nat) (a b : TexImage) (s : GLState) :
    setImage t a (setImage t b s) = setImage t a s := by
  simp [setImage, insertImage_absorb]

theorem bindInputsAux_fields (ps : List (String × Tex)) (unit : Nat)
    (s : GLState) :
    (bindInputsAux unit ps s).images = s.images ∧
    (bindInputsAux unit ps s).numUnits = s.numUnits ∧
    (bindInputsAux unit ps s).framebuffers = s.framebuffers ∧
    (bindInputsAux unit ps s).nextFB = s.nextFB ∧
    (bindInputsAux unit ps s).nextTex = s.nextTex ∧
    (bindInputsAux unit ps s).boundFB = s.boundFB ∧
    (bindInputsAux unit ps s).currentProgram = s.currentProgram := by
  induction ps generalizing unit s with
  | nil => exact ⟨rfl, rfl, rfl, rfl, rfl, rfl, rfl⟩
  | cons p ps ih =>
    simpa [bindInputsAux, bindTextureUnit, glActiveTexture, glBindTexture]
      using ih (unit + 1) (bindTextureUnit unit p.2.texture_ s)

theorem bindInputsAux_bound_mem (ps : List (String × Tex)) (unit : Nat)
    (s : GLState) (e : Nat × Nat)
    (h : e ∈ (bindInputsAux unit ps s).bound) :
    e ∈ s.bound ∨ (unit ≤ e.1 ∧ e.1 < unit + ps.length) := by
  induction ps generalizing unit s with
  | nil => exact Or.inl h
  | cons p ps ih =>
    rcases ih (unit + 1) _ h with h1 | h1
    · simp only [bindTextureUnit, glActiveTexture, glBindTexture,
        List.mem_cons] at h1
      rcases h1 with h1 | h1
      · right
        subst h1
        simp
      · exact Or.inl h1
    · right
      simp only [List.length_cons]
      omega

theorem bindInputsAux_lookup_lt (ps : List (String × Tex)) (unit u : Nat)
    (s : GLState) (hu : u < unit) :
    (bindInputsAux unit ps s).bound.lookup u = s.bound.lookup u := by
  induction ps generalizing unit s with
  | nil => rfl
  | cons p ps ih =>
    rw [bindInputsAux, ih (unit + 1) _ (by omega)]
    have : (u == unit) = false := by simp; omega
    simp [bindTextureUnit, glActiveTexture, glBindTexture, List.lookup,
      this]

theorem bindInputsAux_lookup (ps : List (String × Tex)) (unit u : Nat)
    (s : GLState) (h1 : unit ≤ u) (h2 : u < unit + ps.length) :
    (bindInputsAux unit ps s).bound.lookup u
      = some (ps.getD (u - unit) ("", ⟨0, 0, 0⟩)).2.texture_ := by
  induction ps generalizing unit s with
  | nil => simp at h2; omega
  | cons p ps ih =>
    by_cases hu : u = unit
    · subst hu
      rw [bindInputsAux, bindInputsAux_lookup_lt _ _ _ _ (by omega)]
      simp [bindTextureUnit, glActiveTexture, glBindTexture, List.lookup]
    · rw [bindInputsAux,
        ih (unit + 1) _ (by omega) (by simp only [List.length_cons] at h2; omega)]
      have hsub : u - unit = (u - (unit + 1)) + 1 := by omega
      rw [hsub, List.getD_cons_succ]

theorem lastAssignment_bounds (name : String) (ps : List (String × Tex))
    (unit u : Nat) (h : lastAssignment name unit ps = some u) :
    unit ≤ u ∧ u < unit + ps.length := by
  induction ps generalizing unit with
  | nil => simp [lastAssignment] at h
  | cons p ps ih =>
    rw [lastAssignment] at h
    cases hrec : lastAssignment name (unit + 1) ps with
    | some v =>
      rw [hrec] at h
      cases h
      have := ih (unit + 1) hrec
      simp only [List.length_cons]
      omega
    | none =>
      rw [hrec] at h
      by_cases hp : p.1 = name
      · rw [if_pos hp] at h
        cases h
        simp only [List.length_cons]
        omega
      · rw [if_neg hp] at h
        cases h

/-! ### Dispatch-iteration lemmas -/

theorem dispatchIter_eq_none (κ : Kernel) (tof : String → Option Nat)
    (uni : String → Int) (o vw vh : Nat) (s : GLState)
    (h : lookupImage o s = none) :
    dispatchIter κ tof uni o vw vh s = s := by
  unfold dispatchIter
  rw [h]

theorem dispatchIter_eq_some (κ : Kernel) (tof : String → Option Nat)
    (uni : String → Int) (o vw vh : Nat) (s : GLState) (img : TexImage)
    (h : lookupImage o s = some img) :
    dispatchIter κ tof uni o vw vh s =
      setImage o
        { width := img.width, height := img.height,
          data := (List.range (vw * vh)).map
            (fun i => κ
              (fetchIn tof (setImage o
                { width := img.width, height := img.height,
                  data := List.replicate (img.width * img.height) 0 } s))
              uni (i % vw) (i / vw)) }
        (setImage o
          { width := img.width, height := img.height,
            data := List.replicate (img.width * img.height) 0 } s) := by
  unfold dispatchIter
  rw [h]
  have h2 : lookupImage o (setImage o
      { width := img.width, height := img.height,
        data := List.replicate (img.width * img.height) 0 } s) =
      some { width := img.width, height := img.height,
             data := List.replicate (img.width * img.height) 0 } := by
    simp [lookupImage, setImage, lookup_insertImage_self]
  simp only [h2]

theorem lookupImage_setImage_self (t : Nat) (img : TexImage)
    (s : GLState) : lookupImage t (setImage t img s) = some img := by
  simp [lookupImage, setImage, lookup_insertImage_self]

theorem lookupImage_setImage_other (t u : Nat) (img : TexImage)
    (s : GLState) (h : u ≠ t) :
    lookupImage u (setImage t img s) = lookupImage u s := by
  simp [lookupImage, setImage, lookup_insertImage_other _ _ _ _ h]

theorem dispatchIter_idem (κ : Kernel) (tof : String → Option Nat)
    (uni : String → Int) (o vw vh : Nat) (s : GLState) :
    dispatchIter κ tof uni o vw vh (dispatchIter κ tof uni o vw vh s)
      = dispatchIter κ tof uni o vw vh s := by
  cases h : lookupImage o s with
  | none =>
    rw [dispatchIter_eq_none _ _ _ _ _ _ _ h,
      dispatchIter_eq_none _ _ _ _ _ _ _ h]
  | some img =>
    rw [dispatchIter_eq_some _ _ _ _ _ _ _ _ h]
    rw [dispatchIter_eq_some _ _ _ _ _ _ _ _
      (lookupImage_setImage_self _ _ _)]
    simp only [setImage_absorb]

theorem iterate_of_idem (f : GLState → GLState)
    (hf : ∀ x, f (f x) = f x) (n : Nat) (hn : 0 < n) (s : GLState) :
    f^[n] s = f s := by
  induction n generalizing s with
  | zero => omega
  | succ n ih =>
    rw [Function.iterate_succ_apply]
    cases Nat.eq_zero_or_pos n with
    | inl h0 => rw [h0]; rfl
    | inr hp => rw [ih hp, hf]

/-! ### State-projection lemmas for the GL operations -/

@[simp]
theorem images_glUseProgram (p : Nat) (s : GLState) :
    (glUseProgram p s).images = s.images := rfl

@[simp]
theorem framebuffers_glUseProgram (p : Nat) (s : GLState) :
    (glUseProgram p s).framebuffers = s.framebuffers := rfl

@[simp]
theorem numUnits_glUseProgram (p : Nat) (s : GLState) :
    (glUseProgram p s).numUnits = s.numUnits := rfl

@[simp]
theorem nextFB_glUseProgram (p : Nat) (s : GLState) :
    (glUseProgram p s).nextFB = s.nextFB := rfl

@[simp]
theorem bound_glUseProgram (p : Nat) (s : GLState) :
    (glUseProgram p s).bound = s.bound := rfl

@[simp]
theorem images_glBindFramebuffer (fb : Nat) (s : GLState) :
    (glBindFramebuffer fb s).images = s.images := rfl

@[simp]
theorem framebuffers_glBindFramebuffer (fb : Nat) (s : GLState) :
    (glBindFramebuffer fb s).framebuffers = s.framebuffers := rfl

@[simp]
theorem numUnits_glBindFramebuffer (fb : Nat) (s : GLState) :
    (glBindFramebuffer fb s).numUnits = s.numUnits := rfl

@[simp]
theorem bound_glBindFramebuffer (fb : Nat) (s : GLState) :
    (glBindFramebuffer fb s).bound = s.bound := rfl

@[simp]
theorem fst_glGenFramebuffer (s : GLState) :
    (glGenFramebuffer s).1 = s.nextFB := rfl

@[simp]
theorem images_glGenFramebuffer (s : GLState) :
    (glGenFramebuffer s).2.images = s.images := rfl

@[simp]
theorem framebuffers_glGenFramebuffer (s : GLState) :
    (glGenFramebuffer s).2.framebuffers = s.nextFB :: s.framebuffers :=
  rfl

@[simp]
theorem numUnits_glGenFramebuffer (s : GLState) :
    (glGenFramebuffer s).2.numUnits = s.numUnits := rfl

@[simp]
theorem bound_glGenFramebuffer (s : GLState) :
    (glGenFramebuffer s).2.bound = s.bound := rfl

@[simp]
theorem images_glDeleteFramebuffer (fb : Nat) (s : GLState) :
    (glDeleteFramebuffer fb s).images = s.images := rfl

@[simp]
theorem framebuffers_glDeleteFramebuffer (fb : Nat) (s : GLState) :
    (glDeleteFramebuffer fb s).framebuffers = s.framebuffers.erase fb :=
  rfl

@[simp]
theorem numUnits_glDeleteFramebuffer (fb : Nat) (s : GLState) :
    (glDeleteFramebuffer fb s).numUnits = s.numUnits := rfl

@[simp]
theorem bound_glDeleteFramebuffer (fb : Nat) (s : GLState) :
    (glDeleteFramebuffer fb s).bound = s.bound := rfl

@[simp]
theorem images_setImage (t : Nat) (img : TexImage) (s : GLState) :
    (setImage t img s).images = insertImage t img s.images := rfl

@[simp]
theorem framebuffers_setImage (t : Nat) (img : TexImage) (s : GLState) :
    (setImage t img s).framebuffers = s.framebuffers := rfl

@[simp]
theorem numUnits_setImage (t : Nat) (img : TexImage) (s : GLState) :
    (setImage t img s).numUnits = s.numUnits := rfl

@[simp]
theorem bound_setImage (t : Nat) (img : TexImage) (s : GLState) :
    (setImage t img s).bound = s.bound := rfl

@[simp]
theorem images_bindInputs (inputs : List (String × Tex)) (s : GLState) :
    (bindInputs inputs s).images = s.images :=
  (bindInputsAux_fields inputs 0 s).1

@[simp]
theorem numUnits_bindInputs (inputs : List (String × Tex))
    (s : GLState) : (bindInputs inputs s).numUnits = s.numUnits :=
  (bindInputsAux_fields inputs 0 s).2.1

@[simp]
theorem framebuffers_bindInputs (inputs : List (String × Tex))
    (s : GLState) :
    (bindInputs inputs s).framebuffers = s.framebuffers :=
  (bindInputsAux_fields inputs 0 s).2.2.1

@[simp]
theorem lookupImage_glUseProgram (t p : Nat) (s : GLState) :
    lookupImage t (glUseProgram p s) = lookupImage t s := rfl

@[simp]
theorem lookupImage_glBindFramebuffer (t fb : Nat) (s : GLState) :
    lookupImage t (glBindFramebuffer fb s) = lookupImage t s := rfl

@[simp]
theorem lookupImage_glGenFramebuffer (t : Nat) (s : GLState) :
    lookupImage t (glGenFramebuffer s).2 = lookupImage t s := rfl

@[simp]
theorem lookupImage_glDeleteFramebuffer (t fb : Nat) (s : GLState) :
    lookupImage t (glDeleteFramebuffer fb s) = lookupImage t s := rfl

@[simp]
theorem lookupImage_bindInputs (t : Nat) (inputs : List (String × Tex))
    (s : GLState) :
    lookupImage t (bindInputs inputs s) = lookupImage t s := by
  rw [lookupImage, images_bindInputs, lookupImage]

theorem dispatchIter_framebuffers (κ : Kernel)
    (tof : String → Option Nat) (uni : String → Int) (o vw vh : Nat)
    (s : GLState) :
    (dispatchIter κ tof uni o vw vh s).framebuffers = s.framebuffers := by
  cases h : lookupImage o s with
  | none => rw [dispatchIter_eq_none _ _ _ _ _ _ _ h]
  | some img => rw [dispatchIter_eq_some _ _ _ _ _ _ _ _ h]; rfl

theorem dispatchIter_numUnits (κ : Kernel) (tof : String → Option Nat)
    (uni : String → Int) (o vw vh : Nat) (s : GLState) :
    (dispatchIter κ tof uni o vw vh s).numUnits = s.numUnits := by
  cases h : lookupImage o s with
  | none => rw [dispatchIter_eq_none _ _ _ _ _ _ _ h]
  | some img => rw [dispatchIter_eq_some _ _ _ _ _ _ _ _ h]; rfl

theorem dispatchIter_bound (κ : Kernel) (tof : String → Option Nat)
    (uni : String → Int) (o vw vh : Nat) (s : GLState) :
    (dispatchIter κ tof uni o vw vh s).bound = s.bound := by
  cases h : lookupImage o s with
  | none => rw [dispatchIter_eq_none _ _ _ _ _ _ _ h]
  | some img => rw [dispatchIter_eq_some _ _ _ _ _ _ _ _ h]; rfl

theorem dispatchIter_lookup_other (κ : Kernel)
    (tof : String → Option Nat) (uni : String → Int) (o vw vh t : Nat)
    (s : GLState) (ht : t ≠ o) :
    lookupImage t (dispatchIter κ tof uni o vw vh s)
      = lookupImage t s := by
  cases h : lookupImage o s with
  | none => rw [dispatchIter_eq_none _ _ _ _ _ _ _ h]
  | some img =>
    rw [dispatchIter_eq_some _ _ _ _ _ _ _ _ h,
      lookupImage_setImage_other _ _ _ _ ht,
      lookupImage_setImage_other _ _ _ _ ht]

theorem dispatchIter_dims (κ : Kernel) (tof : String → Option Nat)
    (uni : String → Int) (o vw vh t : Nat) (s : GLState) :
    (lookupImage t (dispatchIter κ tof uni o vw vh s)).map
        TexImage.width = (lookupImage t s).map TexImage.width ∧
    (lookupImage t (dispatchIter κ tof uni o vw vh s)).map
        TexImage.height = (lookupImage t s).map TexImage.height := by
  by_cases ht : t = o
  · subst ht
    cases h : lookupImage t s with
    | none => rw [dispatchIter_eq_none _ _ _ _ _ _ _ h, h]; exact ⟨rfl, rfl⟩
    | some img =>
      rw [dispatchIter_eq_some _ _ _ _ _ _ _ _ h,
        lookupImage_setImage_self]
      exact ⟨rfl, rfl⟩
  · rw [dispatchIter_lookup_other _ _ _ _ _ _ _ _ ht]
    exact ⟨rfl, rfl⟩

theorem iterate_dispatchIter_framebuffers (κ : Kernel)
    (tof : String → Option Nat) (uni : String → Int) (o vw vh n : Nat)
    (s : GLState) :
    ((dispatchIter κ tof uni o vw vh)^[n] s).framebuffers
      = s.framebuffers := by
  induction n generalizing s with
  | zero => rfl
  | succ n ih =>
    rw [Function.iterate_succ_apply, ih, dispatchIter_framebuffers]

theorem iterate_dispatchIter_numUnits (κ : Kernel)
    (tof : String → Option Nat) (uni : String → Int) (o vw vh n : Nat)
    (s : GLState) :
    ((dispatchIter κ tof uni o vw vh)^[n] s).numUnits = s.numUnits := by
  induction n generalizing s with
  | zero => rfl
  | succ n ih =>
    rw [Function.iterate_succ_apply, ih, dispatchIter_numUnits]

theorem iterate_dispatchIter_bound (κ : Kernel)
    (tof : String → Option Nat) (uni : String → Int) (o vw vh n : Nat)
    (s : GLState) :
    ((dispatchIter κ tof uni o vw vh)^[n] s).bound = s.bound := by
  induction n generalizing s with
  | zero => rfl
  | succ n ih =>
    rw [Function.iterate_succ_apply, ih, dispatchIter_bound]

theorem iterate_dispatchIter_lookup_other (κ : Kernel)
    (tof : String → Option Nat) (uni : String → Int) (o vw vh t n : Nat)
    (s : GLState) (ht : t ≠ o) :
    lookupImage t ((dispatchIter κ tof uni o vw vh)^[n] s)
      = lookupImage t s := by
  induction n generalizing s with
  | zero => rfl
  | succ n ih =>
    rw [Function.iterate_succ_apply, ih,
      dispatchIter_lookup_other _ _ _ _ _ _ _ _ ht]

theorem iterate_dispatchIter_dims (κ : Kernel)
    (tof : String → Option Nat) (uni : String → Int) (o vw vh t n : Nat)
    (s : GLState) :
    (lookupImage t ((dispatchIter κ tof uni o vw vh)^[n] s)).map
        TexImage.width = (lookupImage t s).map TexImage.width ∧
    (lookupImage t ((dispatchIter κ tof uni o vw vh)^[n] s)).map
        TexImage.height = (lookupImage t s).map TexImage.height := by
  induction n generalizing s with
  | zero => exact ⟨rfl, rfl⟩
  | succ n ih =>
    rw [Function.iterate_succ_apply]
    rcases ih (dispatchIter κ tof uni o vw vh s) with ⟨ihw, ihh⟩
    rcases dispatchIter_dims κ tof uni o vw vh t s with ⟨hw, hh⟩
    exact ⟨ihw.trans hw, ihh.trans hh⟩

/-! ### The normal-path characterization of a compute dispatch -/

/-- A successful compute dispatch with at least one iteration leaves
the image store with exactly the output texture redefined to the drawn
data, leaves the framebuffer table as it found it, and preserves the
unit count — provided the inputs stay within the unit budget, the
output has a defined nonempty image, and no input aliases the output
texture. -/
theorem renderCompute_ok_spec (κ : Kernel) (prog : Nat)
    (inputs : List (String × Tex)) (uniforms : List (String × Int))
    (output : Tex) (niters : Nat) (s : GLState) (img : TexImage)
    (hpre : inputs.length + 2 ≤ numTextureUnits s)
    (himg : lookupImage output.texture_ s = some img)
    (hw : 0 < img.width) (hh : 0 < img.height)
    (hn : 0 < niters)
    (hout : ∀ p ∈ inputs, p.2.texture_ ≠ output.texture_) :
    ∃ s1, renderCompute κ prog inputs uniforms output niters s
        = Except.ok s1 ∧
      s1.images = insertImage output.texture_
        { width := img.width, height := img.height,
          data := drawData κ inputs uniforms output s } s.images ∧
      s1.framebuffers = s.framebuffers ∧
      s1.numUnits = s.numUnits := by
  have hnp : ¬(inputs.length + 2 > numTextureUnits s) := not_lt.mpr hpre
  unfold renderCompute
  rw [if_neg hnp]
  dsimp only
  have hfb : fbComplete output (glBindFramebuffer
      (glGenFramebuffer (glUseProgram prog s)).1
      (glGenFramebuffer (glUseProgram prog s)).2) = true := by
    rw [fbComplete, lookupImage_glBindFramebuffer,
      lookupImage_glGenFramebuffer, lookupImage_glUseProgram, himg]
    simp [hw, hh]
  rw [if_pos hfb]
  have hiter := iterate_of_idem
    (dispatchIter κ
      (texOf inputs (bindInputs inputs (glBindFramebuffer
        (glGenFramebuffer (glUseProgram prog s)).1
        (glGenFramebuffer (glUseProgram prog s)).2)))
      (uniformVal uniforms) output.texture_ output.width_
      output.height_)
    (fun x => dispatchIter_idem _ _ _ _ _ _ x) niters hn
    (glBindFramebuffer (glGenFramebuffer (glUseProgram prog s)).1
      (bindInputs inputs (glBindFramebuffer
        (glGenFramebuffer (glUseProgram prog s)).1
        (glGenFramebuffer (glUseProgram prog s)).2)))
  have hlk3 : lookupImage output.texture_
      (glBindFramebuffer (glGenFramebuffer (glUseProgram prog s)).1
        (bindInputs inputs (glBindFramebuffer
          (glGenFramebuffer (glUseProgram prog s)).1
          (glGenFramebuffer (glUseProgram prog s)).2)))
      = some img := by
    rw [lookupImage_glBindFramebuffer, lookupImage_bindInputs,
      lookupImage_glBindFramebuffer, lookupImage_glGenFramebuffer,
      lookupImage_glUseProgram, himg]
  have hdi := dispatchIter_eq_some κ
    (texOf inputs (bindInputs inputs (glBindFramebuffer
      (glGenFramebuffer (glUseProgram prog s)).1
      (glGenFramebuffer (glUseProgram prog s)).2)))
    (uniformVal uniforms) output.texture_ output.width_ output.height_
    _ img hlk3
  have hfetch : fetchIn
      (texOf inputs (bindInputs inputs (glBindFramebuffer
        (glGenFramebuffer (glUseProgram prog s)).1
        (glGenFramebuffer (glUseProgram prog s)).2)))
      (setImage output.texture_
        { width := img.width, height := img.height,
          data := List.replicate (img.width * img.height) 0 }
        (glBindFramebuffer (glGenFramebuffer (glUseProgram prog s)).1
          (bindInputs inputs (glBindFramebuffer
            (glGenFramebuffer (glUseProgram prog s)).1
            (glGenFramebuffer (glUseProgram prog s)).2))))
      = specFetch inputs s := by
    funext name
    rw [fetchIn, specFetch, texOf]
    cases hsu : samplerUnit inputs name with
    | none => rfl
    | some u =>
      have hub := lastAssignment_bounds name inputs 0 u hsu
      have hlku : (bindInputs inputs (glBindFramebuffer
          (glGenFramebuffer (glUseProgram prog s)).1
          (glGenFramebuffer (glUseProgram prog s)).2)).bound.lookup u
          = some (inputs.getD u ("", ⟨0, 0, 0⟩)).2.texture_ :=
        bindInputsAux_lookup inputs 0 u _ (by omega) (by omega)
      have hmem : inputs.getD u ("", ⟨0, 0, 0⟩) ∈ inputs := by
        rw [List.getD_eq_getElem _ _ (by omega)]
        exact List.getElem_mem _
      have hne := hout _ hmem
      rw [Option.some_bind, hlku]
      dsimp only
      rw [lookupImage_setImage_other _ _ _ _ hne,
        lookupImage_glBindFramebuffer, lookupImage_bindInputs,
        lookupImage_glBindFramebuffer, lookupImage_glGenFramebuffer,
        lookupImage_glUseProgram]
  refine ⟨_, rfl, ?_, ?_, ?_⟩
  · rw [images_glDeleteFramebuffer, hiter, hdi, images_setImage,
      images_setImage, insertImage_absorb, images_glBindFramebuffer,
      images_bindInputs, images_glBindFramebuffer,
      images_glGenFramebuffer, images_glUseProgram]
    congr 2
    rw [hfetch, drawData]
  · rw [framebuffers_glDeleteFramebuffer, hiter, hdi,
      framebuffers_setImage, framebuffers_setImage,
      framebuffers_glBindFramebuffer, framebuffers_bindInputs,
      framebuffers_glBindFramebuffer, framebuffers_glGenFramebuffer,
      framebuffers_glUseProgram, fst_glGenFramebuffer,
      nextFB_glUseProgram]
    exact List.erase_cons_head _ _
  · rw [numUnits_glDeleteFramebuffer, hiter, hdi, numUnits_setImage,
      numUnits_setImage, numUnits_glBindFramebuffer, numUnits_bindInputs,
      numUnits_glBindFramebuffer, numUnits_glGenFramebuffer,
      numUnits_glUseProgram]

/-! ### Precondition-check helpers -/

theorem renderCompute_tooMany (κ : Kernel) (prog : Nat)
    (inputs : List (String × Tex)) (uniforms : List (String × Int))
    (output : Tex) (niters : Nat) (s : GLState)
    (h : inputs.length + 2 > numTextureUnits s) :
    renderCompute κ prog inputs uniforms output niters s
      = Except.error ("Too many inputs!", s) := by
  unfold renderCompute
  rw [if_pos h]

theorem renderCompute_no_tooMany (κ : Kernel) (prog : Nat)
    (inputs : List (String × Tex)) (uniforms : List (String × Int))
    (output : Tex) (niters : Nat) (s e : GLState)
    (h : inputs.length + 2 ≤ numTextureUnits s) :
    renderCompute κ prog inputs uniforms output niters s
      ≠ Except.error ("Too many inputs!", e) := by
  have hnp : ¬(inputs.length + 2 > numTextureUnits s) := not_lt.mpr h
  unfold renderCompute
  rw [if_neg hnp]
  dsimp only
  by_cases hfb : fbComplete output (glBindFramebuffer
      (glGenFramebuffer (glUseProgram prog s)).1
      (glGenFramebuffer (glUseProgram prog s)).2) = true
  · rw [if_pos hfb]
    exact fun hc => Except.noConfusion hc
  · rw [if_neg hfb]
    intro hc
    have h3 : "Framebuffer not complete." = "Too many inputs!" :=
      congrArg Prod.fst (Except.error.inj hc)
    exact absurd h3 (by decide)

theorem renderDisplay_tooMany (prog : Nat)
    (inputs : List (String × Tex)) (s : GLState)
    (h : inputs.length + 1 > numTextureUnits s) :
    renderDisplay prog inputs s = Except.error ("Too many inputs!", s) := by
  unfold renderDisplay
  rw [if_pos h]

theorem renderDisplay_ok (prog : Nat) (inputs : List (String × Tex))
    (s : GLState) (h : inputs.length + 1 ≤ numTextureUnits s) :
    renderDisplay prog inputs s
      = Except.ok (glBindFramebuffer 0
          (bindInputs inputs (glUseProgram prog s))) := by
  have hnp : ¬(inputs.length + 1 > numTextureUnits s) := not_lt.mpr h
  unfold renderDisplay
  rw [if_neg hnp]

/-! ### Claim theorems: C3, C8 -/

/-- C3: a compute dispatch with `inputs.size() + 2 > NumTextureUnits()`
fails fast with the fatal "Too many inputs!" error, carrying the state
completely unchanged — before binding any input or issuing the draw;
with `inputs.size() + 2 <= NumTextureUnits()` the precondition check
never fires. -/
theorem compute_dispatch_precondition (κ : Kernel) (prog : Nat)
    (inputs : List (String × Tex)) (uniforms : List (String × Int))
    (output : Tex) (niters : Nat) (s : GLState) :
    (inputs.length + 2 > numTextureUnits s →
      renderCompute κ prog inputs uniforms output niters s
        = Except.error ("Too many inputs!", s)) ∧
    (inputs.length + 2 ≤ numTextureUnits s →
      ∀ e, renderCompute κ prog inputs uniforms output niters s
        ≠ Except.error ("Too many inputs!", e)) :=
  ⟨fun h => renderCompute_tooMany κ prog inputs uniforms output niters s h,
   fun h e =>
     renderCompute_no_tooMany κ prog inputs uniforms output niters s e h⟩

/-- Witness for C3: with 3 texture units, two inputs trip the check
(the abort state is the unchanged entry state) and zero inputs never
produce the "Too many inputs!" abort. -/
theorem compute_dispatch_precondition_witness :
    (renderCompute matmulKernel 1 [("A", ⟨1, 1, 1⟩), ("B", ⟨2, 1, 1⟩)]
        [] ⟨3, 1, 1⟩ 1 (initState 3)
      = Except.error ("Too many inputs!", initState 3)) ∧
    (renderCompute matmulKernel 1 [] [] ⟨3, 1, 1⟩ 1 (initState 4)
      ≠ Except.error ("Too many inputs!", initState 4)) :=
  ⟨(compute_dispatch_precondition matmulKernel 1
      [("A", ⟨1, 1, 1⟩), ("B", ⟨2, 1, 1⟩)] [] ⟨3, 1, 1⟩ 1
      (initState 3)).1 (by decide),
   (compute_dispatch_precondition matmulKernel 1 [] [] ⟨3, 1, 1⟩ 1
      (initState 4)).2 (by decide) (initState 4)⟩

/-- C8: the display dispatch enforces the weaker precondition
`inputs.size() + 1 <= NumTextureUnits()` — it aborts with "Too many
inputs!" exactly when `inputs.size() + 1 > NumTextureUnits()`, while
the compute dispatch aborts that way exactly when
`inputs.size() + 2 > NumTextureUnits()`; so with
`inputs.size() + 1 = NumTextureUnits()` (one more input than the
compute dispatch allows) the display dispatch passes the check and the
compute dispatch aborts. -/
theorem display_dispatch_weaker_precondition (κ : Kernel) (prog : Nat)
    (inputs : List (String × Tex)) (uniforms : List (String × Int))
    (output : Tex) (niters : Nat) (s : GLState) :
    ((∃ e, renderDisplay prog inputs s
        = Except.error ("Too many inputs!", e))
      ↔ inputs.length + 1 > numTextureUnits s) ∧
    ((∃ e, renderCompute κ prog inputs uniforms output niters s
        = Except.error ("Too many inputs!", e))
      ↔ inputs.length + 2 > numTextureUnits s) ∧
    (inputs.length + 1 = numTextureUnits s →
      (∀ e, renderDisplay prog inputs s
        ≠ Except.error ("Too many inputs!", e)) ∧
      (∃ e, renderCompute κ prog inputs uniforms output niters s
        = Except.error ("Too many inputs!", e))) := by
  refine ⟨⟨?_, ?_⟩, ⟨?_, ?_⟩, ?_⟩
  · rintro ⟨e, he⟩
    by_cases hc : inputs.length + 1 > numTextureUnits s
    · exact hc
    · rw [renderDisplay_ok prog inputs s (not_lt.mp hc)] at he
      exact Except.noConfusion he
  · exact fun hc => ⟨s, renderDisplay_tooMany prog inputs s hc⟩
  · rintro ⟨e, he⟩
    by_cases hc : inputs.length + 2 > numTextureUnits s
    · exact hc
    · exact absurd he (renderCompute_no_tooMany κ prog inputs uniforms
        output niters s e (not_lt.mp hc))
  · exact fun hc =>
      ⟨s, renderCompute_tooMany κ prog inputs uniforms output niters s hc⟩
  · intro hc
    refine ⟨fun e => ?_, ⟨s, renderCompute_tooMany κ prog inputs
      uniforms output niters s (by omega)⟩⟩
    rw [renderDisplay_ok prog inputs s (by omega)]
    exact fun hcontra => Except.noConfusion hcontra

/-- Witness for C8: with 3 texture units, two inputs pass the display
check but trip the compute check. -/
theorem display_dispatch_weaker_precondition_witness :
    (renderDisplay 1 [("A", ⟨1, 1, 1⟩), ("B", ⟨2, 1, 1⟩)] (initState 3)
      ≠ Except.error ("Too many inputs!", initState 3)) ∧
    (∃ e, renderCompute matmulKernel 1
        [("A", ⟨1, 1, 1⟩), ("B", ⟨2, 1, 1⟩)] [] ⟨3, 1, 1⟩ 1
        (initState 3) = Except.error ("Too many inputs!", e)) :=
  ⟨((display_dispatch_weaker_precondition matmulKernel 1
      [("A", ⟨1, 1, 1⟩), ("B", ⟨2, 1, 1⟩)] [] ⟨3, 1, 1⟩ 1
      (initState 3)).2.2 (by decide)).1 (initState 3),
   ((display_dispatch_weaker_precondition matmulKernel 1
      [("A", ⟨1, 1, 1⟩), ("B", ⟨2, 1, 1⟩)] [] ⟨3, 1, 1⟩ 1
      (initState 3)).2.2 (by decide)).2⟩

/-- C9: shader compilation and program linking abort if and only if the
driver-reported info-log length is positive (i.e. the info log is
non-empty); the queried compile/link status value is never examined, so
the outcome is identical for any two status values.  In particular a
failure with an empty log passes, and a success with a warning in the
log aborts. -/
theorem shader_fatal_iff_log_nonempty (cs cs2 ls ls2 ll : Int)
    (log : String) (sh pr : Nat) :
    (createShaderCheck cs ll log sh = createShaderCheck cs2 ll log sh) ∧
    ((createShaderCheck cs ll log sh).isOk ↔ ¬ll > 0) ∧
    (createProgramCheck ls ll log pr = createProgramCheck ls2 ll log pr) ∧
    ((createProgramCheck ls ll log pr).isOk ↔ ¬ll > 0) := by
  by_cases hll : ll > 0 <;>
    simp [createShaderCheck, createProgramCheck, hll, Except.isOk,
      Except.toBool]

/-! ### Claim theorems: C4, C5, C6, C10 -/

/-- C4: texture creation and readback bind through exactly the scratch
unit `NumTextureUnits() - 1` (the new binding is the head of the bound
list), and a compute dispatch that passed its precondition binds kernel
inputs only at units strictly below `NumTextureUnits() - 1` — every
binding present after a successful dispatch is either a pre-existing
one or sits at a unit `< NumTextureUnits() - 1`, so the scratch unit
never collides with a kernel input unit. -/
theorem scratch_unit_never_collides (d : Option (List Rat)) (w h : Nat)
    (t : GLState) (tex : Tex) (κ : Kernel) (prog : Nat)
    (inputs : List (String × Tex)) (uniforms : List (String × Int))
    (output : Tex) (niters : Nat) (s s1 : GLState)
    (hpre : inputs.length + 2 ≤ numTextureUnits s)
    (hok : renderCompute κ prog inputs uniforms output niters s
      = Except.ok s1) :
    ((createTexture d w h t).2.bound
      = (numTextureUnits t - 1, (createTexture d w h t).1.texture_)
          :: t.bound) ∧
    ((getData tex t).2.bound
      = (numTextureUnits t - 1, tex.texture_) :: t.bound) ∧
    (∀ e ∈ s1.bound, e ∈ s.bound ∨ e.1 < numTextureUnits s - 1) := by
  refine ⟨rfl, rfl, ?_⟩
  intro e he
  unfold renderCompute at hok
  by_cases hnp : inputs.length + 2 > numTextureUnits s
  · rw [if_pos hnp] at hok
    exact Except.noConfusion hok
  · rw [if_neg hnp] at hok
    dsimp only at hok
    by_cases hfb : fbComplete output (glBindFramebuffer
        (glGenFramebuffer (glUseProgram prog s)).1
        (glGenFramebuffer (glUseProgram prog s)).2) = true
    · rw [if_pos hfb] at hok
      cases Except.ok.inj hok
      rw [bound_glDeleteFramebuffer, iterate_dispatchIter_bound,
        bound_glBindFramebuffer, bindInputs] at he
      rcases bindInputsAux_bound_mem inputs 0 _ e he with h1 | h1
      · rw [bound_glBindFramebuffer, bound_glGenFramebuffer,
          bound_glUseProgram] at h1
        exact Or.inl h1
      · right
        rw [numTextureUnits] at hpre ⊢
        omega
    · rw [if_neg hfb] at hok
      exact Except.noConfusion hok

/-- Witness for C4 over the demo scenario: creation binds at the
scratch unit 7 of 8, readback likewise, and the binding `(7, 1)` left
by creation is a pre-existing binding of the dispatch. -/
theorem scratch_unit_never_collides_witness :
    ((createTexture (some [5]) 1 1 (initState 8)).2.bound
      = (numTextureUnits (initState 8) - 1,
          (createTexture (some [5]) 1 1 (initState 8)).1.texture_)
          :: (initState 8).bound) ∧
    ((getData ⟨1, 1, 1⟩ (initState 8)).2.bound
      = (numTextureUnits (initState 8) - 1, 1) :: (initState 8).bound) ∧
    ((7, 1) ∈ demoState.bound ∨
      (7, 1).1 < numTextureUnits demoState - 1) := by
  have h := scratch_unit_never_collides (some [5]) 1 1 (initState 8)
    ⟨1, 1, 1⟩ matmulKernel 1 demoInputs [] demoOut 2 demoState
    demoFinal (by decide) (by rfl)
  exact ⟨h.1, h.2.1, h.2.2 (7, 1) (by decide)⟩

/-- C5 counterexample: the claim says every dispatch destroys its
transient framebuffer on every exit path including assertion failures.
But a dispatch aborting at the framebuffer-completeness assertion
(output texture 5 has no image) leaves its freshly created framebuffer
(id 1) alive in the abort-state, while no framebuffer existed before
the dispatch. -/
theorem framebuffer_leak_on_abort_cex :
    (initState 16).framebuffers = [] ∧
    renderCompute matmulKernel 1 [] [] ⟨5, 1, 1⟩ 1 (initState 16)
      = Except.error ("Framebuffer not complete.",
          finalState (renderCompute matmulKernel 1 [] [] ⟨5, 1, 1⟩ 1
            (initState 16))) ∧
    (finalState (renderCompute matmulKernel 1 [] [] ⟨5, 1, 1⟩ 1
        (initState 16))).framebuffers = [1] :=
  ⟨rfl, rfl, rfl⟩

/-- C5 amended: a compute dispatch that exits normally destroys the
transient framebuffer it created, leaving the framebuffer table exactly
as it found it; on the assertion-failure paths the process aborts
without deleting the framebuffer (and no later dispatch runs). -/
theorem framebuffer_freed_on_success (κ : Kernel) (prog : Nat)
    (inputs : List (String × Tex)) (uniforms : List (String × Int))
    (output : Tex) (niters : Nat) (s s1 : GLState)
    (hok : renderCompute κ prog inputs uniforms output niters s
      = Except.ok s1) :
    s1.framebuffers = s.framebuffers := by
  unfold renderCompute at hok
  by_cases hnp : inputs.length + 2 > numTextureUnits s
  · rw [if_pos hnp] at hok
    exact Except.noConfusion hok
  · rw [if_neg hnp] at hok
    dsimp only at hok
    by_cases hfb : fbComplete output (glBindFramebuffer
        (glGenFramebuffer (glUseProgram prog s)).1
        (glGenFramebuffer (glUseProgram prog s)).2) = true
    · rw [if_pos hfb] at hok
      cases Except.ok.inj hok
      rw [framebuffers_glDeleteFramebuffer,
        iterate_dispatchIter_framebuffers, framebuffers_glBindFramebuffer,
        framebuffers_bindInputs, framebuffers_glBindFramebuffer,
        framebuffers_glGenFramebuffer, framebuffers_glUseProgram,
        fst_glGenFramebuffer, nextFB_glUseProgram]
      exact List.erase_cons_head _ _
    · rw [if_neg hfb] at hok
      exact Except.noConfusion hok

/-- Witness for C5's amended statement over the demo scenario. -/
theorem framebuffer_freed_on_success_witness :
    demoFinal.framebuffers = demoState.framebuffers :=
  framebuffer_freed_on_success matmulKernel 1 demoInputs [] demoOut 2
    demoState demoFinal (by rfl)

/-- C6: with unchanged inputs and uniforms, a compute dispatch with
`niters` iterations is the very same dispatch as with one iteration
(each iteration recomputes what the first computed), and running the
same dispatch twice in succession succeeds both times and leaves the
output texture with identical contents both times. -/
theorem dispatch_iterations_idempotent (κ : Kernel) (prog : Nat)
    (inputs : List (String × Tex)) (uniforms : List (String × Int))
    (output : Tex) (niters : Nat) (s : GLState) (img : TexImage)
    (hn : 0 < niters)
    (hpre : inputs.length + 2 ≤ numTextureUnits s)
    (himg : lookupImage output.texture_ s = some img)
    (hw : 0 < img.width) (hh : 0 < img.height)
    (hout : ∀ p ∈ inputs, p.2.texture_ ≠ output.texture_) :
    (renderCompute κ prog inputs uniforms output niters s
      = renderCompute κ prog inputs uniforms output 1 s) ∧
    (∃ s1 s2,
      renderCompute κ prog inputs uniforms output niters s
        = Except.ok s1 ∧
      renderCompute κ prog inputs uniforms output niters s1
        = Except.ok s2 ∧
      lookupImage output.texture_ s2
        = lookupImage output.texture_ s1) := by
  constructor
  · unfold renderCompute
    by_cases hnp : inputs.length + 2 > numTextureUnits s
    · rw [if_pos hnp, if_pos hnp]
    · rw [if_neg hnp, if_neg hnp]
      dsimp only
      by_cases hfb : fbComplete output (glBindFramebuffer
          (glGenFramebuffer (glUseProgram prog s)).1
          (glGenFramebuffer (glUseProgram prog s)).2) = true
      · rw [if_pos hfb, if_pos hfb,
          iterate_of_idem _ (fun x => dispatchIter_idem _ _ _ _ _ _ x)
            niters hn, Function.iterate_one]
      · rw [if_neg hfb, if_neg hfb]
  · obtain ⟨s1, hok1, him1, _, hnu1⟩ := renderCompute_ok_spec κ prog
      inputs uniforms output niters s img hpre himg hw hh hn hout
    have hlk1 : lookupImage output.texture_ s1
        = some { width := img.width, height := img.height,
                 data := drawData κ inputs uniforms output s } := by
      rw [lookupImage, him1]
      exact lookup_insertImage_self _ _ _
    have hpre1 : inputs.length + 2 ≤ numTextureUnits s1 := by
      rw [numTextureUnits, hnu1]
      exact hpre
    obtain ⟨s2, hok2, him2, _, _⟩ := renderCompute_ok_spec κ prog
      inputs uniforms output niters s1
      { width := img.width, height := img.height,
        data := drawData κ inputs uniforms output s }
      hpre1 hlk1 hw hh hn hout
    refine ⟨s1, s2, hok1, hok2, ?_⟩
    have hsf : specFetch inputs s1 = specFetch inputs s := by
      funext name
      rw [specFetch, specFetch]
      cases hsu : samplerUnit inputs name with
      | none => rfl
      | some u =>
        have hub := lastAssignment_bounds name inputs 0 u hsu
        have hmem : inputs.getD u ("", ⟨0, 0, 0⟩) ∈ inputs := by
          rw [List.getD_eq_getElem _ _ (by omega)]
          exact List.getElem_mem _
        have hne := hout _ hmem
        dsimp only
        rw [lookupImage, him1, lookup_insertImage_other _ _ _ _ hne,
          ← lookupImage]
    have hdd : drawData κ inputs uniforms output s1
        = drawData κ inputs uniforms output s := by
      rw [drawData, drawData, hsf]
    rw [lookupImage, him2, lookupImage, him1, hdd,
      lookup_insertImage_self, lookup_insertImage_self]

/-- Witness for C6 over the demo scenario. -/
theorem dispatch_iterations_idempotent_witness :
    (renderCompute matmulKernel 1 demoInputs [] demoOut 2 demoState
      = renderCompute matmulKernel 1 demoInputs [] demoOut 1
          demoState) ∧
    (∃ s1 s2,
      renderCompute matmulKernel 1 demoInputs [] demoOut 2 demoState
        = Except.ok s1 ∧
      renderCompute matmulKernel 1 demoInputs [] demoOut 2 s1
        = Except.ok s2 ∧
      lookupImage demoOut.texture_ s2
        = lookupImage demoOut.texture_ s1) :=
  dispatch_iterations_idempotent matmulKernel 1 demoInputs [] demoOut 2
    demoState ⟨1, 1, [0]⟩ (by decide) (by decide) (by rfl) (by decide)
    (by decide) (by decide)

/-- C10: a compute dispatch writes only the output texture's contents:
the contents of every input texture distinct from the output texture
are unchanged (whatever path the dispatch takes), and the width and
height of every texture image in the store are unchanged. -/
theorem dispatch_writes_only_output (κ : Kernel) (prog : Nat)
    (inputs : List (String × Tex)) (uniforms : List (String × Int))
    (output : Tex) (niters : Nat) (s : GLState) :
    (∀ p ∈ inputs, p.2.texture_ ≠ output.texture_ →
      lookupImage p.2.texture_
        (finalState (renderCompute κ prog inputs uniforms output
          niters s))
        = lookupImage p.2.texture_ s) ∧
    (∀ t,
      (lookupImage t (finalState (renderCompute κ prog inputs uniforms
          output niters s))).map TexImage.width
        = (lookupImage t s).map TexImage.width ∧
      (lookupImage t (finalState (renderCompute κ prog inputs uniforms
          output niters s))).map TexImage.height
        = (lookupImage t s).map TexImage.height) := by
  unfold renderCompute
  by_cases hnp : inputs.length + 2 > numTextureUnits s
  · rw [if_pos hnp]
    exact ⟨fun p _ _ => rfl, fun t => ⟨rfl, rfl⟩⟩
  · rw [if_neg hnp]
    dsimp only
    by_cases hfb : fbComplete output (glBindFramebuffer
        (glGenFramebuffer (glUseProgram prog s)).1
        (glGenFramebuffer (glUseProgram prog s)).2) = true
    · rw [if_pos hfb]
      dsimp only [finalState]
      constructor
      · intro p _ ht
        rw [lookupImage_glDeleteFramebuffer,
          iterate_dispatchIter_lookup_other _ _ _ _ _ _ _ _ _ ht,
          lookupImage_glBindFramebuffer, lookupImage_bindInputs,
          lookupImage_glBindFramebuffer, lookupImage_glGenFramebuffer,
          lookupImage_glUseProgram]
      · intro t
        rcases iterate_dispatchIter_dims κ _ (uniformVal uniforms)
          output.texture_ output.width_ output.height_ t niters _
          with ⟨hw1, hh1⟩
        constructor
        · rw [lookupImage_glDeleteFramebuffer, hw1,
            lookupImage_glBindFramebuffer, lookupImage_bindInputs,
            lookupImage_glBindFramebuffer, lookupImage_glGenFramebuffer,
            lookupImage_glUseProgram]
        · rw [lookupImage_glDeleteFramebuffer, hh1,
            lookupImage_glBindFramebuffer, lookupImage_bindInputs,
            lookupImage_glBindFramebuffer, lookupImage_glGenFramebuffer,
            lookupImage_glUseProgram]
    · rw [if_neg hfb]
      dsimp only [finalState]
      exact ⟨fun p _ _ => rfl, fun t => ⟨rfl, rfl⟩⟩

/-! ### The matmul kernel against the CPU reference (C1) -/

theorem texelFetchR_natCast (img : List Rat) (n : Nat)
    (h : n < img.length) : texelFetchR img (n : Int) = img.getD n 0 := by
  rw [texelFetchR,
    if_pos ⟨Int.natCast_nonneg n, by exact_mod_cast h⟩]
  norm_num

/-- Pointwise, the shader's per-fragment accumulation equals the CPU
reference's per-cell accumulation: both run `i = 0 .. N-1` in order
over the same operands. -/
theorem matmulKernel_eq_cpuCell (fetch : String → List Rat)
    (uni : String → Int) (A B : List Rat) (N idx y : Nat)
    (hfA : fetch "A" = A) (hfB : fetch "B" = B)
    (huN : uni "N" = (N : Int)) (hN : 0 < N) (hidx : idx < N * N)
    (hA : A.length = N * N) (hB : B.length = N * N) :
    matmulKernel fetch uni idx y
      = cpuCell A B N (idx / N) (idx % N) := by
  have hrow : idx / N < N := (Nat.div_lt_iff_lt_mul hN).mpr hidx
  have hcol : idx % N < N := Nat.mod_lt idx hN
  rw [matmulKernel]
  rw [hfA, hfB, huN, cpuCell]
  have htoNat : ((N : Int)).toNat = N := rfl
  rw [htoNat]
  apply List.foldl_ext
  intro acc i hi
  have hiN : i < N := List.mem_range.mp hi
  have hdiv : (idx : Int) / (N : Int) = ((idx / N : Nat) : Int) := rfl
  have hmod : (idx : Int) % (N : Int) = ((idx % N : Nat) : Int) := rfl
  have hargA : (idx : Int) / (N : Int) * (N : Int) + (i : Int)
      = ((idx / N * N + i : Nat) : Int) := by
    rw [hdiv]; push_cast; ring
  have hargB : (i : Int) * (N : Int) + (idx : Int) % (N : Int)
      = ((i * N + idx % N : Nat) : Int) := by
    rw [hmod]; push_cast; ring
  have hbA : idx / N * N + i < A.length := by
    rw [hA]
    calc idx / N * N + i < idx / N * N + N := by omega
    _ = (idx / N + 1) * N := by ring
    _ ≤ N * N := Nat.mul_le_mul_right N (by omega)
  have hbB : i * N + idx % N < B.length := by
    rw [hB]
    calc i * N + idx % N < i * N + N := by omega
    _ = (i + 1) * N := by ring
    _ ≤ N * N := Nat.mul_le_mul_right N (by omega)
  rw [hargA, hargB, texelFetchR_natCast A _ hbA,
    texelFetchR_natCast B _ hbB]

/-- Indexing a row-major double loop: element `idx` of the
concatenation of `N` rows of length `k` each. -/
theorem getD_flatMap_const_length {α β : Type} (l : List α)
    (g : α → List β) (k : Nat) (d : β) (dflt : α)
    (hk : ∀ a ∈ l, (g a).length = k) (idx : Nat)
    (hidx : idx < l.length * k) :
    (l.flatMap g).getD idx d
      = (g (l.getD (idx / k) dflt)).getD (idx % k) d := by
  induction l generalizing idx with
  | nil => simp at hidx
  | cons a l ih =>
    have hga : (g a).length = k := hk a (List.mem_cons_self a l)
    have hk0 : 0 < k := by
      rcases Nat.eq_zero_or_pos k with h0 | h0
      · rw [h0] at hidx; omega
      · exact h0
    rw [List.flatMap_cons]
    by_cases hlt : idx < k
    · rw [List.getD_append _ _ _ _ (by omega),
        Nat.div_eq_of_lt hlt, Nat.mod_eq_of_lt hlt]
      rfl
    · rw [List.getD_append_right _ _ _ _ (by omega), hga]
      have hmul : (a :: l).length * k = l.length * k + k := by
        rw [List.length_cons]; ring
      have hidx2 : idx - k < l.length * k := by omega
      rw [ih (fun b hb => hk b (List.mem_cons_of_mem a hb))
        (idx - k) hidx2]
      have hsplit : idx - k + k = idx := by omega
      have h1 : idx / k = (idx - k) / k + 1 := by
        conv_lhs => rw [← hsplit]
        rw [Nat.add_div_right _ hk0]
      have h2 : idx % k = (idx - k) % k := by
        conv_lhs => rw [← hsplit]
        rw [Nat.add_mod_right]
      rw [h1, h2, List.getD_cons_succ]

/-- Cell `idx` of the CPU reference array. -/
theorem cpuMatmul_getD (t0 t1 : List Rat) (N idx : Nat)
    (hidx : idx < N * N) :
    (cpuMatmul t0 t1 N).getD idx 0
      = cpuCell t0 t1 N (idx / N) (idx % N) := by
  have hN : 0 < N := by
    rcases Nat.eq_zero_or_pos N with h0 | h0
    · rw [h0] at hidx; omega
    · exact h0
  have hrow : idx / N < N := (Nat.div_lt_iff_lt_mul hN).mpr hidx
  have hcol : idx % N < N := Nat.mod_lt idx hN
  rw [cpuMatmul, getD_flatMap_const_length (List.range N) _ N 0 0
    (fun a _ => by simp) idx (by simpa using hidx)]
  rw [List.getD_eq_getElem (List.range N) 0 (by simpa using hrow),
    List.getElem_range]
  rw [List.getD_eq_getElem _ _ (by simpa using hcol),
    List.getElem_map, List.getElem_range]

/-- C1: for every `N > 0` and square matrices `A`, `B` (as `N*N`-long
1-row arrays), the matmul compute dispatch succeeds and produces at
every cell `idx` exactly the CPU triple-loop reference value
`Σ_i A[(idx/N)*N+i] * B[i*N+idx%N]`, hence agrees with the CPU
reference within the 0.001-per-cell tolerance (both sides evaluated in
exact arithmetic). -/
theorem matmul_dispatch_matches_cpu (U N niters : Nat) (A B : List Rat)
    (hU : 4 ≤ U) (hN : 0 < N) (hn : 0 < niters)
    (hA : A.length = N * N) (hB : B.length = N * N) :
    ∃ out, matmulPipeline U N niters A B = Except.ok out ∧
      out.length = N * N ∧
      ∀ idx, idx < N * N →
        out.getD idx 0 = cpuCell A B N (idx / N) (idx % N) ∧
        |out.getD idx 0 - (cpuMatmul A B N).getD idx 0|
          < 1 / 1000 := by
  have hNN : 0 < N * N := Nat.mul_pos hN hN
  -- the state after the three texture creations, explicitly
  have hstate3 : (createTexture none (N * N) 1
      (createTexture (some B) (N * N) 1
        (createTexture (some A) (N * N) 1 (initState U)).2).2).2
      = { numUnits := U, activeUnit := U - 1,
          bound := [(U - 1, 3), (U - 1, 2), (U - 1, 1)],
          images := [(1, ⟨N * N, 1, A.take (N * N)⟩),
                     (2, ⟨N * N, 1, B.take (N * N)⟩),
                     (3, ⟨N * N, 1, List.replicate (N * N) 0⟩)],
          nextTex := 4, framebuffers := [], nextFB := 1, boundFB := 0,
          currentProgram := 0 } := by
    simp [createTexture, glGenTexture, bindTextureUnit, glActiveTexture,
      glBindTexture, glTexImage2D, boundTex, setImage, insertImage,
      numTextureUnits, initState, List.lookup]
  have h1tex : (createTexture (some A) (N * N) 1 (initState U)).1
      = ⟨1, N * N, 1⟩ := rfl
  have h2tex : (createTexture (some B) (N * N) 1
      (createTexture (some A) (N * N) 1 (initState U)).2).1
      = ⟨2, N * N, 1⟩ := rfl
  have h3tex : (createTexture none (N * N) 1
      (createTexture (some B) (N * N) 1
        (createTexture (some A) (N * N) 1 (initState U)).2).2).1
      = ⟨3, N * N, 1⟩ := rfl
  obtain ⟨s1, hok, him1, _, hnum1⟩ := renderCompute_ok_spec matmulKernel
    1 [("A", ⟨1, N * N, 1⟩), ("B", ⟨2, N * N, 1⟩)] [("N", (N : Int))]
    ⟨3, N * N, 1⟩ niters
    { numUnits := U, activeUnit := U - 1,
      bound := [(U - 1, 3), (U - 1, 2), (U - 1, 1)],
      images := [(1, ⟨N * N, 1, A.take (N * N)⟩),
                 (2, ⟨N * N, 1, B.take (N * N)⟩),
                 (3, ⟨N * N, 1, List.replicate (N * N) 0⟩)],
      nextTex := 4, framebuffers := [], nextFB := 1, boundFB := 0,
      currentProgram := 0 }
    ⟨N * N, 1, List.replicate (N * N) 0⟩
    (by simpa [numTextureUnits] using hU)
    (by simp [lookupImage, List.lookup])
    hNN Nat.one_pos hn
    (by
      intro p hp
      rcases List.mem_cons.mp hp with h | h
      · rw [h]; simp
      · rcases List.mem_cons.mp h with h | h
        · rw [h]; simp
        · simp at h)
  have hpipe : matmulPipeline U N niters A B
      = Except.ok ((getData ⟨3, N * N, 1⟩ s1).1) := by
    simp only [matmulPipeline]
    rw [h1tex, h2tex, h3tex, hstate3, hok]
    rfl
  -- read the target back: its image in s1 is the drawn data
  have hlk1 : lookupImage 3 s1
      = some { width := N * N, height := 1,
               data := drawData matmulKernel
                 [("A", ⟨1, N * N, 1⟩), ("B", ⟨2, N * N, 1⟩)]
                 [("N", (N : Int))] ⟨3, N * N, 1⟩
                 { numUnits := U, activeUnit := U - 1,
                   bound := [(U - 1, 3), (U - 1, 2), (U - 1, 1)],
                   images := [(1, ⟨N * N, 1, A.take (N * N)⟩),
                              (2, ⟨N * N, 1, B.take (N * N)⟩),
                              (3, ⟨N * N, 1, List.replicate (N * N) 0⟩)],
                   nextTex := 4, framebuffers := [], nextFB := 1,
                   boundFB := 0, currentProgram := 0 } } := by
    rw [lookupImage, him1]
    exact lookup_insertImage_self _ _ _
  have hgd : (getData ⟨3, N * N, 1⟩ s1).1
      = ((lookupImage 3 s1).getD ⟨0, 0, []⟩).data := by
    simp [getData, bindTextureUnit, glActiveTexture, glBindTexture,
      boundTex, lookupImage, List.lookup]
  -- the fetch functions the kernel sees
  have hfA : specFetch [("A", ⟨1, N * N, 1⟩), ("B", ⟨2, N * N, 1⟩)]
      { numUnits := U, activeUnit := U - 1,
        bound := [(U - 1, 3), (U - 1, 2), (U - 1, 1)],
        images := [(1, ⟨N * N, 1, A.take (N * N)⟩),
                   (2, ⟨N * N, 1, B.take (N * N)⟩),
                   (3, ⟨N * N, 1, List.replicate (N * N) 0⟩)],
        nextTex := 4, framebuffers := [], nextFB := 1, boundFB := 0,
        currentProgram := 0 } "A" = A := by
    have hsu : samplerUnit [("A", (⟨1, N * N, 1⟩ : Tex)),
        ("B", ⟨2, N * N, 1⟩)] "A" = some 0 := rfl
    rw [specFetch, hsu]
    simp [lookupImage, List.lookup, List.take_of_length_le hA.le]
  have hfB : specFetch [("A", ⟨1, N * N, 1⟩), ("B", ⟨2, N * N, 1⟩)]
      { numUnits := U, activeUnit := U - 1,
        bound := [(U - 1, 3), (U - 1, 2), (U - 1, 1)],
        images := [(1, ⟨N * N, 1, A.take (N * N)⟩),
                   (2, ⟨N * N, 1, B.take (N * N)⟩),
                   (3, ⟨N * N, 1, List.replicate (N * N) 0⟩)],
        nextTex := 4, framebuffers := [], nextFB := 1, boundFB := 0,
        currentProgram := 0 } "B" = B := by
    have hsu : samplerUnit [("A", (⟨1, N * N, 1⟩ : Tex)),
        ("B", ⟨2, N * N, 1⟩)] "B" = some 1 := rfl
    rw [specFetch, hsu]
    simp [lookupImage, List.lookup, List.take_of_length_le hB.le]
  have huN : uniformVal [("N", (N : Int))] "N" = (N : Int) := rfl
  refine ⟨(getData ⟨3, N * N, 1⟩ s1).1, hpipe, ?_, ?_⟩
  · rw [hgd, hlk1]
    simp [drawData]
  · intro idx hidx
    have hcell : (getData ⟨3, N * N, 1⟩ s1).1.getD idx 0
        = cpuCell A B N (idx / N) (idx % N) := by
      rw [hgd, hlk1]
      show (drawData _ _ _ _ _).getD idx 0 = _
      rw [drawData]
      dsimp only
      rw [List.getD_eq_getElem _ _ (by simpa using hidx),
        List.getElem_map, List.getElem_range]
      rw [Nat.mod_eq_of_lt hidx]
      exact matmulKernel_eq_cpuCell _ _ A B N idx _ hfA hfB huN hN hidx
        hA hB
    refine ⟨hcell, ?_⟩
    rw [hcell, cpuMatmul_getD A B N idx hidx, sub_self, abs_zero]
    norm_num

/-- Witness for C1 at `N = 1`, `A = [2]`, `B = [3]`, one iteration,
four texture units. -/
theorem matmul_dispatch_matches_cpu_witness :
    ∃ out, matmulPipeline 4 1 1 [2] [3] = Except.ok out ∧
      out.length = 1 * 1 ∧
      ∀ idx, idx < 1 * 1 →
        out.getD idx 0 = cpuCell [2] [3] 1 (idx / 1) (idx % 1) ∧
        |out.getD idx 0 - (cpuMatmul [2] [3] 1).getD idx 0|
          < 1 / 1000 :=
  matmul_dispatch_matches_cpu 4 1 1 [2] [3] (by decide) (by decide)
    (by decide) (by decide) (by decide)

/-- Witness for C10 over the demo scenario: input texture 1's contents
survive the dispatch, and the output texture 2's dimensions survive
it. -/
theorem dispatch_writes_only_output_witness :
    lookupImage 1 (finalState (renderCompute matmulKernel 1 demoInputs
        [] demoOut 2 demoState)) = lookupImage 1 demoState ∧
    (lookupImage 2 (finalState (renderCompute matmulKernel 1 demoInputs
        [] demoOut 2 demoState))).map TexImage.width
      = (lookupImage 2 demoState).map TexImage.width :=
  ⟨(dispatch_writes_only_output matmulKernel 1 demoInputs [] demoOut 2
      demoState).1 ("A", ⟨1, 1, 1⟩) (by decide) (by decide),
   ((dispatch_writes_only_output matmulKernel 1 demoInputs [] demoOut 2
      demoState).2 2).1⟩

end Glitter
